import Mathlib

/-!
Shallow embedding of the retrieval-augmented chat endpoint in
`src/app/api/chat/route.ts` (the `POST` handler of the Himalayan climate
chatbot), together with proofs of the specification's testable properties.

Modelling conventions:
* JavaScript numbers used as relevance scores are modelled as rationals
  (the code only ever compares a score against the literal `0.3`).
* `undefined` / optional fields become `Option`.
* The three external calls (embedding service, vector index, chat
  completion) are injected as `Except`-valued inputs; the handler records
  which calls it made, and the exact message list it handed to the
  generation call, in a `CallLog`.
* JavaScript truthiness of a possibly-missing string (`!message`,
  `item.imageUrl` in a boolean position) is `isTruthyOpt`: present and
  non-empty.
-/

namespace ChatRoute

/-- Metadata of a Pinecone match (`PineconeMatch.metadata` in route.ts). -/
structure Metadata where
  content_type : String
  paper_title : String
  page_number : Int
  content : String
  image_url : Option String
  paper_id : Option String
deriving DecidableEq

/-- A single vector-search result (`PineconeMatch` in route.ts): the score
and the metadata record may both be absent. -/
structure PineconeMatch where
  id : String
  score : Option ℚ
  metadata : Option Metadata
deriving DecidableEq

/-- A retrieved match after projection (`ContextItem` in route.ts).  The
`content_type` string is kept as-is: the code merely casts it. -/
structure ContextItem where
  type : String
  content : String
  source : String
  page : Int
  imageUrl : Option String
  score : ℚ
deriving DecidableEq

/-- One turn of the chat history supplied by the client. -/
structure ChatMsg where
  role : String
  content : String
deriving DecidableEq

/-- One message of the conversation handed to the chat-completion call. -/
structure ChatMessageParam where
  role : String
  content : String
deriving DecidableEq

/-- An image entry of the JSON response. -/
structure ImageOut where
  url : Option String
  source : String
  page : Int
  description : String
  pdfFile : String
  score : ℚ
deriving DecidableEq

/-- A source entry of the JSON response. -/
structure SourceOut where
  title : String
  page : Int
  pdfFile : String
deriving DecidableEq

/-- Body of the JSON response: either an error object or the success
envelope; a sum type, so a 500 body cannot carry partial success fields. -/
inductive ResponseBody where
  | error (msg : String)
  | success (message : String) (images : List ImageOut) (sources : List SourceOut)
deriving DecidableEq

/-- An HTTP response: status code plus JSON body. -/
structure ApiResponse where
  status : Nat
  body : ResponseBody
deriving DecidableEq

/-- Record of the downstream calls the handler performed.  `sentMessages`
is the exact conversation passed to the chat-completion call (`none` when
that call was never reached). -/
structure CallLog where
  embedCalled : Bool
  searchCalled : Bool
  sentMessages : Option (List ChatMessageParam)
deriving DecidableEq

/-- Injected results of the three external services: embedding vector,
vector-index matches, and the completion's `message.content` (which the
model may return as `null`, hence `Option String`). -/
structure Deps where
  embed : Except Unit (List ℚ)
  search : Except Unit (List PineconeMatch)
  generate : Except Unit (Option String)

/-- The parsed request body: `message` may be absent, `chatHistory`
defaults to `[]`. -/
structure ChatRequest where
  message : Option String
  chatHistory : List ChatMsg

/-- JavaScript truthiness of a possibly-undefined string: defined and
non-empty. -/
def isTruthyOpt : Option String → Bool
  | none => false
  | some s => !(s == "")

/-- `match.score || 0` of route.ts: a missing score counts as `0`. -/
def scoreOr0 (m : PineconeMatch) : ℚ :=
  (m.score).getD 0

/-- JavaScript whitespace class `\s` (the code points regexes match). -/
def isJsWs (c : Char) : Bool :=
  c = ' ' || c = '\t' || c = '\n' ||
  c.toNat = 0xd || c.toNat = 0xb || c.toNat = 0xc ||
  c.toNat = 0xa0 || c.toNat = 0x1680 ||
  (0x2000 <= c.toNat && c.toNat <= 0x200a) ||
  c.toNat = 0x2028 || c.toNat = 0x2029 || c.toNat = 0x202f ||
  c.toNat = 0x205f || c.toNat = 0x3000 || c.toNat = 0xfeff

/-- The character class `[a-zA-Z0-9\s-]` kept by the first `replace` of
`createPdfFilename`. -/
def keepChar (c : Char) : Bool :=
  ('a' ≤ c && c ≤ 'z') || ('A' ≤ c && c ≤ 'Z') || ('0' ≤ c && c ≤ '9') ||
  isJsWs c || c = '-'

/-- `replace(/\s+/g, '_')`: each maximal run of whitespace becomes a single
underscore.  The flag says whether the previous character was whitespace
(i.e. whether we are inside a run already replaced). -/
def collapseWsAux : Bool → List Char → List Char
  | _, [] => []
  | prevWs, c :: rest =>
    if isJsWs c then
      (if prevWs then [] else ['_']) ++ collapseWsAux true rest
    else
      c :: collapseWsAux false rest

/-- `replace(/\s+/g, '_')` on a character list. -/
def collapseWs (l : List Char) : List Char :=
  collapseWsAux false l

/-- `createPdfFilename` of route.ts: strip characters outside
`[a-zA-Z0-9\s-]`, turn whitespace runs into `_`, truncate to 80
characters, append `.pdf`. -/
def createPdfFilename (paperTitle : String) : String :=
  String.mk ((collapseWs (paperTitle.data.filter keepChar)).take 80) ++ ".pdf"

/-- The relevance floor `0.3` of route.ts line 86, as an exact rational. -/
def relevanceFloor : ℚ :=
  mkRat 3 10

/-- The relevance filter of route.ts line 86:
`match.metadata && (match.score || 0) > 0.3`. -/
def passesFloor (m : PineconeMatch) : Bool :=
  m.metadata.isSome && decide (relevanceFloor < scoreOr0 m)

/-- Fallback metadata record standing for the TypeScript non-null
assertion `match.metadata!`; never reached because `passesFloor` has
already checked presence. -/
def dfltMetadata : Metadata :=
  ⟨"", "", 0, "", none, none⟩

/-- Projection of one surviving match (the `.map` of route.ts lines 87-94). -/
def mkContextItem (m : PineconeMatch) : ContextItem :=
  let md := m.metadata.getD dfltMetadata
  { type := md.content_type
    content := md.content
    source := md.paper_title
    page := md.page_number
    imageUrl := md.image_url
    score := scoreOr0 m }

/-- `contextItems` of route.ts: filter by the relevance floor, then
project. -/
def contextItems (ms : List PineconeMatch) : List ContextItem :=
  (ms.filter passesFloor).map mkContextItem

/-- `textResults` of route.ts line 97. -/
def textResultsOf (items : List ContextItem) : List ContextItem :=
  items.filter (fun item => item.type == "text")

/-- `imageResults` of route.ts lines 98-100: image kind and truthy URL. -/
def imageResultsOf (items : List ContextItem) : List ContextItem :=
  items.filter (fun item => item.type == "image" && isTruthyOpt item.imageUrl)

/-- The text-section header of the context string. -/
def textHeader : String :=
  "### Relevant Text from Research Papers:\n\n"

/-- The figures-section header of the context string. -/
def figHeader : String :=
  "### Relevant Figures/Charts Available:\n\n"

/-- The tagged block emitted for one text item (route.ts line 122). -/
def textBlock (item : ContextItem) : String :=
  "[Paper: \"" ++ item.source ++ "\", Page " ++ toString item.page ++ "]\n" ++
  item.content ++ "\n\n"

/-- The tagged block emitted for one image item (route.ts line 129). -/
def figBlock (item : ContextItem) : String :=
  "[Figure from: \"" ++ item.source ++ "\", Page " ++ toString item.page ++ "]\n" ++
  "Figure Description: " ++ item.content ++ "\n\n"

/-- `contextString` of route.ts lines 117-131: sequential `+=` over the
text results, then over the image results, each section prefixed by its
header only when non-empty. -/
def buildContextString (ts imgs : List ContextItem) : String :=
  (if 0 < ts.length then
    ts.foldl (fun acc item => acc ++ textBlock item) textHeader
  else "") ++
  (if 0 < imgs.length then
    imgs.foldl (fun acc item => acc ++ figBlock item) figHeader
  else "")

/-- The fixed system prompt of route.ts lines 134-154. -/
def systemPrompt : String :=
  "You are an expert research assistant specializing in Himalayan climate, glaciology, hydrology, and environmental science. You answer questions using a comprehensive knowledge base of peer-reviewed research papers.\n\nIMPORTANT INSTRUCTIONS FOR CITATIONS:\n1. When citing information, ALWAYS use the EXACT full paper title provided in the context.\n2. Format citations as: (Paper: \"Full Paper Title\", Page X).\n3. NEVER use generic references like \"Source 1\" or \"Source 8\" - always use the actual paper name.\n4. Be specific about which paper each piece of information comes from.\n\nIMPORTANT INSTRUCTIONS FOR FIGURES:\n1. When figures/charts are relevant to the answer, MENTION them explicitly.\n2. Say something like \"A relevant figure from [Paper Name] on page X illustrates this...\".\n3. Describe what the figure shows if the description is helpful.\n\nYour role:\n- Answer questions accurately using ONLY the provided context.\n- Cite specific papers by their FULL TITLE and page numbers.\n- Explain complex concepts clearly while maintaining scientific accuracy.\n- If the context doesn't contain enough information, acknowledge this honestly.\n- When relevant figures exist, reference them to support your answer.\n\nRemember: Users will see the actual images, so describe what they show and why they're relevant."

/-- The final user-role message content of route.ts line 165. -/
def finalUserContent (ctx msg : String) : String :=
  "Research Context:\n" ++ ctx ++ "\n\nUser Question: " ++ msg ++
  "\n\nAnswer the user's question using only the research context above. If relevant figures are available, mention them in your response."

/-- The conversation of route.ts lines 156-167: system prompt, then
`chatHistory.slice(-6)` mapped field-by-field, then the final user turn.
`List.drop (length - 6)` is JavaScript `slice(-6)` (whole list when the
history has at most 6 turns). -/
def messagesFor (hist : List ChatMsg) (ctx msg : String) : List ChatMessageParam :=
  ⟨"system", systemPrompt⟩ ::
    (hist.drop (hist.length - 6)).map (fun m => ⟨m.role, m.content⟩) ++
    [⟨"user", finalUserContent ctx msg⟩]

/-- The source entry built for a text item (route.ts lines 185-189). -/
def mkSource (t : ContextItem) : SourceOut :=
  ⟨t.source, t.page, createPdfFilename t.source⟩

/-- One step of the `sourceMap` construction (route.ts lines 183-191):
insert a paper keyed by its title if that title is not present yet.  The
JavaScript object is modelled as an insertion-ordered list, which is the
enumeration order `Object.keys` gives string keys. -/
def insertSource (acc : List SourceOut) (t : ContextItem) : List SourceOut :=
  if acc.any (fun s => s.title == t.source) then acc
  else acc ++ [mkSource t]

/-- `sourceMap` + `Object.keys` extraction of route.ts lines 179-196: the
deduplicated source list, keyed by paper title, first occurrence wins. -/
def buildSources (ts : List ContextItem) : List SourceOut :=
  ts.foldl insertSource []

/-- The image entries of the response (route.ts lines 201-208):
`imageResults.slice(0, 4)` then projection. -/
def imagesOut (imgs : List ContextItem) : List ImageOut :=
  (imgs.take 4).map (fun img =>
    ⟨img.imageUrl, img.source, img.page, img.content,
     createPdfFilename img.source, img.score⟩)

/-- The 200 response of route.ts lines 199-210. -/
def successResponse (ts imgs : List ContextItem) (assistantMessage : String) :
    ApiResponse :=
  ⟨200, .success assistantMessage (imagesOut imgs) ((buildSources ts).take 6)⟩

/-- The generic 500 body of route.ts lines 213-216. -/
def genericFailure : String :=
  "Failed to process your request. Please try again."

/-- The `POST` handler of route.ts: validate the message, then embed,
search, assemble context, generate, and shape the response; any downstream
failure falls into the single catch block.  Returns the HTTP response
together with the call log. -/
def POST (req : ChatRequest) (deps : Deps) : ApiResponse × CallLog :=
  if isTruthyOpt req.message = false then
    (⟨400, .error "Message is required"⟩, ⟨false, false, none⟩)
  else
    match deps.embed with
    | .error _ => (⟨500, .error genericFailure⟩, ⟨true, false, none⟩)
    | .ok _ =>
      match deps.search with
      | .error _ => (⟨500, .error genericFailure⟩, ⟨true, true, none⟩)
      | .ok ms =>
        let items := contextItems ms
        let ts := textResultsOf items
        let imgs := imageResultsOf items
        let ctx := buildContextString ts imgs
        let msgs := messagesFor req.chatHistory ctx (req.message.getD "")
        match deps.generate with
        | .error _ => (⟨500, .error genericFailure⟩, ⟨true, true, some msgs⟩)
        | .ok content =>
          (successResponse ts imgs (content.getD ""), ⟨true, true, some msgs⟩)

/-- Projection used to state claims about the success body's sources. -/
def sourcesOf : ResponseBody → List SourceOut
  | .success _ _ srcs => srcs
  | .error _ => []

/-- Projection used to state claims about the success body's images. -/
def imagesOf : ResponseBody → List ImageOut
  | .success _ imgsL _ => imgsL
  | .error _ => []

/-! ### Basic lemmas about the retrieval pipeline -/

theorem contextItems_append (a b : List PineconeMatch) :
    contextItems (a ++ b) = contextItems a ++ contextItems b := by
  simp [contextItems]

theorem contextItems_cons_of_fails (m : PineconeMatch) (l : List PineconeMatch)
    (h : passesFloor m = false) : contextItems (m :: l) = contextItems l := by
  simp [contextItems, List.filter_cons, h]

theorem POST_skip_of_fails (req : ChatRequest) (e : Except Unit (List ℚ))
    (g : Except Unit (Option String)) (l₁ l₂ : List PineconeMatch)
    (m : PineconeMatch) (h : passesFloor m = false) :
    POST req ⟨e, .ok (l₁ ++ m :: l₂), g⟩ = POST req ⟨e, .ok (l₁ ++ l₂), g⟩ := by
  have hc : contextItems (l₁ ++ m :: l₂) = contextItems (l₁ ++ l₂) := by
    rw [contextItems_append, contextItems_append, contextItems_cons_of_fails m l₂ h]
  simp only [POST, hc]

theorem POST_congr_results (req : ChatRequest) (e : Except Unit (List ℚ))
    (g : Except Unit (Option String)) (ms ms' : List PineconeMatch)
    (ht : textResultsOf (contextItems ms) = textResultsOf (contextItems ms'))
    (hi : imageResultsOf (contextItems ms) = imageResultsOf (contextItems ms')) :
    POST req ⟨e, .ok ms, g⟩ = POST req ⟨e, .ok ms', g⟩ := by
  simp only [POST, ht, hi]

theorem mkContextItem_type (m : PineconeMatch) (md : Metadata)
    (hm : m.metadata = some md) : (mkContextItem m).type = md.content_type := by
  simp [mkContextItem, hm]

theorem mkContextItem_imageUrl (m : PineconeMatch) (md : Metadata)
    (hm : m.metadata = some md) : (mkContextItem m).imageUrl = md.image_url := by
  simp [mkContextItem, hm]

/-! ### Concrete sample data used by witnesses and counterexamples -/

/-- A text match metadata record. -/
def mdText : Metadata :=
  ⟨"text", "Paper A", 3, "passage a", none, none⟩

/-- An image match metadata record with no image URL. -/
def mdImgNoUrl : Metadata :=
  ⟨"image", "Paper B", 5, "caption b", none, none⟩

/-- A text match above the relevance floor. -/
def mGood : PineconeMatch :=
  ⟨"good", some (mkRat 9 10), some mdText⟩

/-- A text match below the relevance floor. -/
def mLow : PineconeMatch :=
  ⟨"low", some (mkRat 1 5), some mdText⟩

/-- A text match with no score at all. -/
def mNoScore : PineconeMatch :=
  ⟨"noscore", none, some mdText⟩

/-- A high-scoring image match lacking an image URL. -/
def mImgNoUrl : PineconeMatch :=
  ⟨"img", some (mkRat 9 10), some mdImgNoUrl⟩

/-- A request with a non-empty message and no history. -/
def reqStd : ChatRequest :=
  ⟨some "What melts glaciers?", []⟩

/-- Dependencies where every downstream call succeeds, returning `ms`. -/
def depsWith (ms : List PineconeMatch) : Deps :=
  ⟨.ok [], .ok ms, .ok (some "answer")⟩

/-! ### Claims -/

/-- C1: a retrieved match whose relevance score is ≤ 0.30, or whose
metadata is absent, contributes nothing to the output: the whole response
(assembled context included, via the logged conversation) is the same as
if the match had not been retrieved at all. -/
theorem low_score_or_no_metadata_contributes_nothing
    (req : ChatRequest) (e : Except Unit (List ℚ)) (g : Except Unit (Option String))
    (l₁ l₂ : List PineconeMatch) (m : PineconeMatch)
    (h : scoreOr0 m ≤ relevanceFloor ∨ m.metadata = none) :
    POST req ⟨e, .ok (l₁ ++ m :: l₂), g⟩ = POST req ⟨e, .ok (l₁ ++ l₂), g⟩ := by
  apply POST_skip_of_fails
  rcases h with h | h
  · unfold passesFloor
    rw [decide_eq_false (not_lt.mpr h)]
    simp
  · simp [passesFloor, h]

/-- Witness for C1 at a concrete low-scoring match. -/
theorem low_score_or_no_metadata_contributes_nothing_witness :
    (scoreOr0 mLow ≤ relevanceFloor ∨ mLow.metadata = none) ∧
    POST reqStd ⟨.ok [], .ok ([mGood] ++ mLow :: []), .ok (some "answer")⟩ =
      POST reqStd ⟨.ok [], .ok ([mGood] ++ []), .ok (some "answer")⟩ :=
  ⟨by decide,
   low_score_or_no_metadata_contributes_nothing reqStd (.ok []) (.ok (some "answer"))
     [mGood] [] mLow (by decide)⟩

/-- C10: a match whose score field is absent is treated as score 0 by the
relevance filter, hence always discarded: the response is as if the match
had not been retrieved, even when its metadata is present. -/
theorem missing_score_treated_as_zero
    (req : ChatRequest) (e : Except Unit (List ℚ)) (g : Except Unit (Option String))
    (l₁ l₂ : List PineconeMatch) (m : PineconeMatch) (h : m.score = none) :
    scoreOr0 m = 0 ∧
    POST req ⟨e, .ok (l₁ ++ m :: l₂), g⟩ = POST req ⟨e, .ok (l₁ ++ l₂), g⟩ := by
  have hs : scoreOr0 m = 0 := by simp [scoreOr0, h]
  refine ⟨hs, POST_skip_of_fails _ _ _ _ _ _ ?_⟩
  unfold passesFloor
  rw [hs, decide_eq_false (by decide : ¬ relevanceFloor < (0 : ℚ))]
  simp

/-- Witness for C10 at a concrete score-less match with metadata. -/
theorem missing_score_treated_as_zero_witness :
    mNoScore.score = none ∧ mNoScore.metadata.isSome = true ∧
    (scoreOr0 mNoScore = 0 ∧
      POST reqStd ⟨.ok [], .ok ([mGood] ++ mNoScore :: []), .ok (some "answer")⟩ =
        POST reqStd ⟨.ok [], .ok ([mGood] ++ []), .ok (some "answer")⟩) :=
  ⟨rfl, rfl,
   missing_score_treated_as_zero reqStd (.ok []) (.ok (some "answer"))
     [mGood] [] mNoScore rfl⟩

/-- C4: an image match lacking a non-empty image URL never reaches the
images list (nor anything else in the response), whatever its score, and
the request still succeeds exactly as if the match were absent: the drop
is silent. -/
theorem image_without_url_silently_dropped
    (req : ChatRequest) (e : Except Unit (List ℚ)) (g : Except Unit (Option String))
    (l₁ l₂ : List PineconeMatch) (m : PineconeMatch) (md : Metadata)
    (hm : m.metadata = some md) (hk : md.content_type = "image")
    (hu : isTruthyOpt md.image_url = false) :
    POST req ⟨e, .ok (l₁ ++ m :: l₂), g⟩ = POST req ⟨e, .ok (l₁ ++ l₂), g⟩ := by
  by_cases hp : passesFloor m = true
  · apply POST_congr_results
    · have hsplit : contextItems (l₁ ++ m :: l₂) =
          contextItems l₁ ++ mkContextItem m :: contextItems l₂ := by
        rw [contextItems_append]
        simp [contextItems, List.filter_cons, hp]
      have h1 : ((mkContextItem m).type == "text") = false := by
        rw [mkContextItem_type m md hm, hk]
        decide
      rw [hsplit, contextItems_append]
      unfold textResultsOf
      simp [List.filter_append, List.filter_cons, h1]
    · have hsplit : contextItems (l₁ ++ m :: l₂) =
          contextItems l₁ ++ mkContextItem m :: contextItems l₂ := by
        rw [contextItems_append]
        simp [contextItems, List.filter_cons, hp]
      have h2 : isTruthyOpt (mkContextItem m).imageUrl = false := by
        rw [mkContextItem_imageUrl m md hm, hu]
      rw [hsplit, contextItems_append]
      unfold imageResultsOf
      simp [List.filter_append, List.filter_cons, h2]
  · exact POST_skip_of_fails _ _ _ _ _ _ (by simpa using hp)

/-- Witness for C4 at a concrete high-scoring URL-less image match. -/
theorem image_without_url_silently_dropped_witness :
    mImgNoUrl.metadata = some mdImgNoUrl ∧ mdImgNoUrl.content_type = "image" ∧
    isTruthyOpt mdImgNoUrl.image_url = false ∧
    relevanceFloor < scoreOr0 mImgNoUrl ∧
    POST reqStd ⟨.ok [], .ok ([mGood] ++ mImgNoUrl :: []), .ok (some "answer")⟩ =
      POST reqStd ⟨.ok [], .ok ([mGood] ++ []), .ok (some "answer")⟩ :=
  ⟨rfl, rfl, rfl, by decide,
   image_without_url_silently_dropped reqStd (.ok []) (.ok (some "answer"))
     [mGood] [] mImgNoUrl mdImgNoUrl rfl rfl rfl⟩

/-- C6: a missing or empty `message` field yields status 400 with body
`{error: "Message is required"}` and no downstream call is made. -/
theorem missing_message_yields_400_and_no_calls
    (req : ChatRequest) (deps : Deps)
    (h : req.message = none ∨ req.message = some "") :
    POST req deps = (⟨400, .error "Message is required"⟩, ⟨false, false, none⟩) := by
  have hf : isTruthyOpt req.message = false := by
    rcases h with h | h <;> simp [isTruthyOpt, h]
  simp [POST, hf]

/-- Witness for C6 at a request with no message field. -/
theorem missing_message_yields_400_and_no_calls_witness :
    ((⟨none, []⟩ : ChatRequest).message = none ∨
      (⟨none, []⟩ : ChatRequest).message = some "") ∧
    POST ⟨none, []⟩ (depsWith [mGood]) =
      (⟨400, .error "Message is required"⟩, ⟨false, false, none⟩) :=
  ⟨Or.inl rfl,
   missing_message_yields_400_and_no_calls ⟨none, []⟩ (depsWith [mGood]) (Or.inl rfl)⟩

/-- C7: when any downstream call fails, the handler answers 500 with
exactly the generic error body — a body that can carry no partial success
fields and does not say which stage failed. -/
theorem downstream_failure_yields_opaque_500
    (req : ChatRequest) (deps : Deps)
    (h : isTruthyOpt req.message = true)
    (hf : deps.embed = .error () ∨ deps.search = .error () ∨ deps.generate = .error ()) :
    (POST req deps).1 =
      ⟨500, .error "Failed to process your request. Please try again."⟩ := by
  obtain ⟨e, s, g⟩ := deps
  cases e <;> cases s <;> cases g <;> simp_all [POST, genericFailure]

/-- Witness for C7 at a concrete embedding failure. -/
theorem downstream_failure_yields_opaque_500_witness :
    isTruthyOpt reqStd.message = true ∧
    ((⟨.error (), .ok [], .ok none⟩ : Deps).embed = .error () ∨
      (⟨.error (), .ok [], .ok none⟩ : Deps).search = .error () ∨
      (⟨.error (), .ok [], .ok none⟩ : Deps).generate = .error ()) ∧
    (POST reqStd ⟨.error (), .ok [], .ok none⟩).1 =
      ⟨500, .error "Failed to process your request. Please try again."⟩ :=
  ⟨rfl, Or.inl rfl,
   downstream_failure_yields_opaque_500 reqStd ⟨.error (), .ok [], .ok none⟩
     rfl (Or.inl rfl)⟩

theorem imagesOut_length_le (l : List ContextItem) : (imagesOut l).length ≤ 4 := by
  simp [imagesOut, List.length_take]

/-- C5: whenever the handler answers with a success body, its images list
has at most 4 entries and its sources list at most 6, whatever was
retrieved. -/
theorem response_lists_truncated
    (req : ChatRequest) (deps : Deps) (msg : String)
    (imgsL : List ImageOut) (srcL : List SourceOut)
    (h : (POST req deps).1.body = .success msg imgsL srcL) :
    imgsL.length ≤ 4 ∧ srcL.length ≤ 6 := by
  obtain ⟨e, s, g⟩ := deps
  by_cases ht : isTruthyOpt req.message = false
  · simp [POST, ht] at h
  · cases e with
    | error u => simp [POST, ht] at h
    | ok v =>
      cases s with
      | error u => simp [POST, ht] at h
      | ok ms =>
        cases g with
        | error u => simp [POST, ht] at h
        | ok c =>
          simp [POST, ht, successResponse] at h
          obtain ⟨-, hi, hs⟩ := h
          constructor
          · rw [← hi]
            exact imagesOut_length_le _
          · rw [← hs]
            simp [List.length_take]

/-- Witness for C5 at a concrete successful request. -/
theorem response_lists_truncated_witness :
    (POST reqStd (depsWith [mGood])).1.body =
      .success "answer" [] [⟨"Paper A", 3, "Paper_A.pdf"⟩] ∧
    (([] : List ImageOut).length ≤ 4 ∧
      ([⟨"Paper A", 3, "Paper_A.pdf"⟩] : List SourceOut).length ≤ 6) :=
  ⟨by decide,
   response_lists_truncated reqStd (depsWith [mGood]) "answer"
     [] [⟨"Paper A", 3, "Paper_A.pdf"⟩] (by decide)⟩

/-- C8: the conversation handed to the generation call is the system
prompt, then at most the last 6 turns of the supplied history passed
through field-by-field in order, then the final user turn; with more than
6 turns of history exactly the last 6 are forwarded (the equation
`histPart.length = min 6 length` and the decomposition `pre ++ histPart`
pin `histPart` to the final segment). -/
theorem history_trimmed_to_last_six
    (req : ChatRequest) (v : List ℚ) (g : Except Unit (Option String))
    (ms : List PineconeMatch) (h : isTruthyOpt req.message = true) :
    ∃ ctx histPart pre,
      (POST req ⟨.ok v, .ok ms, g⟩).2.sentMessages =
        some (⟨"system", systemPrompt⟩ :: histPart ++
          [⟨"user", finalUserContent ctx (req.message.getD "")⟩]) ∧
      req.chatHistory.map (fun t => (⟨t.role, t.content⟩ : ChatMessageParam)) =
        pre ++ histPart ∧
      histPart.length = min 6 req.chatHistory.length := by
  have ht : ¬ isTruthyOpt req.message = false := by simp [h]
  refine ⟨buildContextString (textResultsOf (contextItems ms))
      (imageResultsOf (contextItems ms)),
    (req.chatHistory.drop (req.chatHistory.length - 6)).map
      (fun t => ⟨t.role, t.content⟩),
    (req.chatHistory.take (req.chatHistory.length - 6)).map
      (fun t => ⟨t.role, t.content⟩), ?_, ?_, ?_⟩
  · cases g <;> simp [POST, ht, messagesFor]
  · rw [← List.map_append, List.take_append_drop]
  · simp only [List.length_map, List.length_drop]
    omega

/-- History with 7 turns, used to witness the trimming claim. -/
def hist7 : List ChatMsg :=
  [⟨"user", "h1"⟩, ⟨"assistant", "h2"⟩, ⟨"user", "h3"⟩, ⟨"assistant", "h4"⟩,
   ⟨"user", "h5"⟩, ⟨"assistant", "h6"⟩, ⟨"user", "h7"⟩]

/-- A request carrying the 7-turn history. -/
def reqHist : ChatRequest :=
  ⟨some "q", hist7⟩

/-- Witness for C8 at a 7-turn history. -/
theorem history_trimmed_to_last_six_witness :
    isTruthyOpt reqHist.message = true ∧
    ∃ ctx histPart pre,
      (POST reqHist ⟨.ok [], .ok [], .ok (some "a")⟩).2.sentMessages =
        some (⟨"system", systemPrompt⟩ :: histPart ++
          [⟨"user", finalUserContent ctx (reqHist.message.getD "")⟩]) ∧
      reqHist.chatHistory.map (fun t => (⟨t.role, t.content⟩ : ChatMessageParam)) =
        pre ++ histPart ∧
      histPart.length = min 6 reqHist.chatHistory.length :=
  ⟨rfl, history_trimmed_to_last_six reqHist [] (.ok (some "a")) [] rfl⟩

theorem strJoin_cons (s : String) (l : List String) :
    String.join (s :: l) = s ++ String.join l := by
  apply String.ext
  simp [String.join_eq, String.data_append]

theorem foldl_append_eq_join {α : Type} (f : α → String) (l : List α) (init : String) :
    l.foldl (fun acc x => acc ++ f x) init = init ++ String.join (l.map f) := by
  induction l generalizing init with
  | nil => simp [String.join, String.append_empty]
  | cons a l ih =>
    simp only [List.foldl_cons, List.map_cons, ih, strJoin_cons]
    rw [String.append_assoc]

theorem section_foldl_eq (header : String) (f : ContextItem → String)
    (l : List ContextItem) :
    (if 0 < l.length then l.foldl (fun acc item => acc ++ f item) header else "") =
    (if l = [] then "" else header ++ String.join (l.map f)) := by
  rcases l with _ | ⟨a, l⟩
  · simp
  · simp only [List.length_cons, Nat.zero_lt_succ, if_pos, List.foldl_cons,
      foldl_append_eq_join, List.map_cons, strJoin_cons, reduceCtorEq, if_neg,
      not_false_eq_true, String.append_assoc]

/-- C9: the assembled context is the "Relevant Text" section — each text
item a tagged block with the paper title in quotes, the page and the
content — followed by the "Relevant Figures" section of similarly tagged
blocks whose content is the figure caption; each section lists its items
in order, and the text/image partitions are order-preserving sublists of
the retrieved items (no re-ranking). -/
theorem context_sections_ordered :
    (∀ ts imgs : List ContextItem,
      buildContextString ts imgs =
        (if ts = [] then "" else textHeader ++ String.join (ts.map textBlock)) ++
        (if imgs = [] then "" else figHeader ++ String.join (imgs.map figBlock))) ∧
    (∀ items : List ContextItem,
      List.Sublist (textResultsOf items) items ∧
      List.Sublist (imageResultsOf items) items) := by
  refine ⟨fun ts imgs => ?_,
    fun items => ⟨List.filter_sublist _, List.filter_sublist _⟩⟩
  unfold buildContextString
  rw [section_foldl_eq, section_foldl_eq]

/-- The character class `[A-Za-z0-9_-]` the claim asserts for the part of
the derived filename before `.pdf`. -/
def isSafeChar (c : Char) : Bool :=
  ('a' ≤ c && c ≤ 'z') || ('A' ≤ c && c ≤ 'Z') || ('0' ≤ c && c ≤ '9') ||
  c = '_' || c = '-'

theorem safe_of_keep_not_ws (c : Char) (hk : keepChar c = true)
    (hw : isJsWs c = false) : isSafeChar c = true := by
  unfold keepChar at hk
  unfold isSafeChar
  rw [hw] at hk
  simp only [Bool.or_false, Bool.or_eq_true] at hk ⊢
  tauto

theorem collapseWsAux_safe (l : List Char) : ∀ p : Bool,
    (∀ c ∈ l, keepChar c = true) →
    ∀ c ∈ collapseWsAux p l, isSafeChar c = true := by
  induction l with
  | nil =>
    intro p _ c hc
    simp [collapseWsAux] at hc
  | cons a l ih =>
    intro p h c hc
    unfold collapseWsAux at hc
    cases hw : isJsWs a with
    | true =>
      rw [hw] at hc
      simp only [if_true] at hc
      rcases List.mem_append.mp hc with hc | hc
      · cases p with
        | false =>
          simp only [if_neg Bool.false_ne_true, List.mem_singleton] at hc
          subst hc
          decide
        | true => simp at hc
      · exact ih true (fun d hd => h d (List.mem_cons_of_mem a hd)) c hc
    | false =>
      rw [hw] at hc
      simp only [Bool.false_eq_true, if_false] at hc
      rcases List.mem_cons.mp hc with hc | hc
      · subst hc
        exact safe_of_keep_not_ws c (h c (List.mem_cons_self c l)) hw
      · exact ih false (fun d hd => h d (List.mem_cons_of_mem a hd)) c hc

/-- C3: filename derivation is a pure, deterministic function of the
title, and for every title the derived name is a base of at most 80
characters drawn from `[A-Za-z0-9_-]` followed by the literal `.pdf`. -/
theorem createPdfFilename_shape :
    (∀ t₁ t₂ : String, t₁ = t₂ → createPdfFilename t₁ = createPdfFilename t₂) ∧
    ∀ t : String, ∃ base : List Char,
      (createPdfFilename t).data = base ++ ".pdf".data ∧
      base.length ≤ 80 ∧
      ∀ c ∈ base, isSafeChar c = true := by
  refine ⟨fun t₁ t₂ h => h ▸ rfl, fun t => ?_⟩
  refine ⟨(collapseWs (t.data.filter keepChar)).take 80, ?_, ?_, ?_⟩
  · rw [createPdfFilename, String.data_append]
  · simp [List.length_take]
  · intro c hc
    exact collapseWsAux_safe _ false (fun d hd => List.of_mem_filter hd) c
      (List.mem_of_mem_take hc)

/-- Witness for C3 at a concrete title with punctuation and double
spaces. -/
theorem createPdfFilename_shape_witness :
    createPdfFilename "Himalayan  Glaciers: 2020!" = "Himalayan_Glaciers_2020.pdf" ∧
    createPdfFilename "Himalayan  Glaciers: 2020!" =
      createPdfFilename "Himalayan  Glaciers: 2020!" ∧
    ∃ base : List Char,
      (createPdfFilename "Himalayan  Glaciers: 2020!").data = base ++ ".pdf".data ∧
      base.length ≤ 80 ∧
      ∀ c ∈ base, isSafeChar c = true :=
  ⟨by decide,
   createPdfFilename_shape.1 "Himalayan  Glaciers: 2020!" "Himalayan  Glaciers: 2020!" rfl,
   createPdfFilename_shape.2 "Himalayan  Glaciers: 2020!"⟩

/-! ### Characterization of the deduplicated source list -/

theorem sources_foldl_filter (ts : List ContextItem) :
    ∀ (acc : List SourceOut) (title : String),
    (ts.foldl insertSource acc).filter (fun s => s.title == title) =
      acc.filter (fun s => s.title == title) ++
        (if acc.any (fun s => s.title == title) then []
         else
           match ts.find? (fun t => t.source == title) with
           | none => []
           | some t => [mkSource t]) := by
  induction ts with
  | nil =>
    intro acc title
    cases h : acc.any (fun s => s.title == title) <;> simp [h, List.find?]
  | cons t ts ih =>
    intro acc title
    rw [List.foldl_cons, ih (insertSource acc t) title]
    unfold insertSource
    cases ha : acc.any (fun s => s.title == t.source) with
    | true =>
      simp only [ha, if_true]
      cases hc : acc.any (fun s => s.title == title) with
      | true => simp
      | false =>
        cases hb : t.source == title with
        | false => simp [List.find?_cons, hb]
        | true =>
          have he : t.source = title := eq_of_beq hb
          rw [he] at ha
          rw [ha] at hc
          exact absurd hc (by simp)
    | false =>
      simp only [ha, Bool.false_eq_true, if_false]
      cases hb : t.source == title with
      | true =>
        have he : t.source = title := eq_of_beq hb
        subst he
        simp [List.filter_append, List.any_append, ha, List.find?_cons, mkSource]
      | false =>
        simp [List.filter_append, List.any_append, mkSource, hb, List.find?_cons]
theorem buildSources_filter (ts : List ContextItem) (title : String) :
    (buildSources ts).filter (fun s => s.title == title) =
      (match ts.find? (fun t => t.source == title) with
       | none => []
       | some t => [mkSource t]) := by
  simpa [buildSources] using sources_foldl_filter ts [] title

/-- Seven high-scoring text matches with seven distinct paper titles. -/
def mT (i t : String) : PineconeMatch :=
  ⟨i, some (mkRat 9 10), some ⟨"text", t, 1, "p", none, none⟩⟩

/-- A retrieval result with seven distinct surviving paper titles. -/
def msSeven : List PineconeMatch :=
  [mT "1" "a", mT "2" "b", mT "3" "c", mT "4" "d", mT "5" "e", mT "6" "f",
   mT "7" "g"]

/-- Counterexample to C2 as stated: with seven distinct surviving paper
titles, the text match titled "g" survives filtering (it occurs exactly
once among the text results), the request succeeds, and yet the sources
list of the response contains zero entries — not exactly one — for the
title "g", because the response keeps only the first six deduplicated
sources. -/
theorem sources_dedup_counterexample :
    (textResultsOf (contextItems msSeven)).countP (fun t => t.source == "g") = 1 ∧
    (POST reqStd (depsWith msSeven)).1.status = 200 ∧
    (sourcesOf (POST reqStd (depsWith msSeven)).1.body).countP
      (fun s => s.title == "g") = 0 := by
  decide

/-- C2 (amended): on a successful request the sources list of the
response is the deduplicated-by-title source list truncated to six
entries; it holds at most one entry per paper title, every entry it holds
is built from the first-ranked surviving text match with that title (so
the entry's page is the page of that first occurrence), and when at most
six distinct titles survive, every surviving title has exactly one
entry. -/
theorem sources_deduplicated_first_page
    (req : ChatRequest) (v : List ℚ) (c : Option String)
    (ms : List PineconeMatch) (h : isTruthyOpt req.message = true) :
    ∃ srcs : List SourceOut,
      (POST req ⟨.ok v, .ok ms, .ok c⟩).1.body =
        .success (c.getD "") (imagesOut (imageResultsOf (contextItems ms))) srcs ∧
      (∀ title, srcs.countP (fun s => s.title == title) ≤ 1) ∧
      (∀ s ∈ srcs, ∃ t,
        (textResultsOf (contextItems ms)).find? (fun t0 => t0.source == s.title) =
          some t ∧ s = mkSource t) ∧
      ((buildSources (textResultsOf (contextItems ms))).length ≤ 6 →
        ∀ title, title ∈ (textResultsOf (contextItems ms)).map ContextItem.source →
          srcs.countP (fun s => s.title == title) = 1) := by
  have ht : ¬ isTruthyOpt req.message = false := by simp [h]
  refine ⟨(buildSources (textResultsOf (contextItems ms))).take 6, ?_, ?_, ?_, ?_⟩
  · simp [POST, ht, successResponse]
  · intro title
    have h1 : ((buildSources (textResultsOf (contextItems ms))).take 6).countP
        (fun s => s.title == title) ≤
        (buildSources (textResultsOf (contextItems ms))).countP
          (fun s => s.title == title) :=
      (List.take_sublist _ _).countP_le _
    have h2 : (buildSources (textResultsOf (contextItems ms))).countP
        (fun s => s.title == title) ≤ 1 := by
      rw [List.countP_eq_length_filter, buildSources_filter]
      cases hf : (textResultsOf (contextItems ms)).find?
          (fun t => t.source == title) <;> simp
    exact h1.trans h2
  · intro s hs
    have hs' : s ∈ buildSources (textResultsOf (contextItems ms)) :=
      List.mem_of_mem_take hs
    have hmem : s ∈ (buildSources (textResultsOf (contextItems ms))).filter
        (fun x => x.title == s.title) :=
      List.mem_filter.mpr ⟨hs', by simp⟩
    rw [buildSources_filter] at hmem
    cases hf : (textResultsOf (contextItems ms)).find?
        (fun t0 => t0.source == s.title) with
    | none =>
      rw [hf] at hmem
      simp at hmem
    | some t =>
      rw [hf] at hmem
      simp at hmem
      exact ⟨t, rfl, hmem⟩
  · intro hlen title htitle
    rw [List.take_of_length_le hlen, List.countP_eq_length_filter,
      buildSources_filter]
    obtain ⟨t0, ht0, hp⟩ := List.mem_map.mp htitle
    have hsome : ((textResultsOf (contextItems ms)).find?
        (fun t => t.source == title)).isSome := by
      rw [List.find?_isSome]
      exact ⟨t0, ht0, by simp [hp]⟩
    cases hf : (textResultsOf (contextItems ms)).find?
        (fun t => t.source == title) with
    | none =>
      rw [hf] at hsome
      simp at hsome
    | some t => simp

/-- Witness for the amended C2 at the seven-title retrieval result. -/
theorem sources_deduplicated_first_page_witness :
    isTruthyOpt reqStd.message = true ∧
    ∃ srcs : List SourceOut,
      (POST reqStd ⟨.ok [], .ok msSeven, .ok (some "answer")⟩).1.body =
        .success ((some "answer").getD "")
          (imagesOut (imageResultsOf (contextItems msSeven))) srcs ∧
      (∀ title, srcs.countP (fun s => s.title == title) ≤ 1) ∧
      (∀ s ∈ srcs, ∃ t,
        (textResultsOf (contextItems msSeven)).find?
          (fun t0 => t0.source == s.title) = some t ∧ s = mkSource t) ∧
      ((buildSources (textResultsOf (contextItems msSeven))).length ≤ 6 →
        ∀ title,
          title ∈ (textResultsOf (contextItems msSeven)).map ContextItem.source →
          srcs.countP (fun s => s.title == title) = 1) :=
  ⟨rfl, sources_deduplicated_first_page reqStd [] (some "answer") msSeven rfl⟩

end ChatRoute
